import Mathlib

/-!
Shallow embedding of the advanced-content-tracker core, translated from the
repository sources:

* src/analyzers/content_classifier.py  (ContentClassifier and its merge steps)
* src/core/daemon.py                   (ContentTrackerDaemon capture cycle, lifecycle)
* src/core/monitor.py                  (WindowMonitor.is_user_idle; the class defines
                                        neither has_window_changed nor update_last_window)
* src/utils/config.py                  (exclusion predicates, detection/monitoring flags)
* src/storage/models.py                (Activity record shape)

Strings are modelled with Lean String, float confidences with ℚ (the claims only
compare and look up these values, never exercise rounding), timestamps with ℕ.
The five analyzer stages are external collaborators from the pipeline's point of
view; their call results are inputs to the embedded classify, with Except.error
modelling a call that raises (only the CLIP and NSFW calls can raise into
classify: the URL, OCR and image analyzers catch their own exceptions and
return default values, as their sources show, so their calls are modelled by
their returned values and classify's outer exception handler is unreachable).
-/

/-- Prefix test on char lists, used to model the Python expression needle in hay. -/
def listHasPre : List Char → List Char → Bool
  | [], _ => true
  | _ :: _, [] => false
  | a :: as, b :: bs => a == b && listHasPre as bs

/-- Containment test on char lists: does needle occur contiguously in hay. -/
def listHasSub (needle : List Char) : List Char → Bool
  | [] => needle.isEmpty
  | b :: bs => listHasPre needle (b :: bs) || listHasSub needle bs

/-- Python expression needle in hay on strings (substring containment). -/
def substrOf (needle hay : String) : Bool :=
  listHasSub needle.data hay.data

/-- Python str.lower (the source only lowercases ASCII app names and titles). -/
def pyLower (s : String) : String :=
  ⟨s.data.map Char.toLower⟩

/-- Helper for pyTitle: the Boolean tracks whether the previous char was a letter. -/
def pyTitleAux : Bool → List Char → List Char
  | _, [] => []
  | prevAlpha, c :: cs =>
    (if c.isAlpha then (if prevAlpha then c.toLower else c.toUpper) else c)
      :: pyTitleAux c.isAlpha cs

/-- Python str.title restricted to ASCII letters. -/
def pyTitle (s : String) : String :=
  ⟨pyTitleAux false s.data⟩

/-- Python s.replace with a one-char needle, as in content_category.replace with
underscore and space. -/
def pyReplaceUnderscore (s : String) : String :=
  ⟨s.data.map (fun c => if c = '_' then ' ' else c)⟩

/-- Python max on two floats (the first argument wins ties), used for the
confidence updates; rational constants are written with mkRat throughout so
that concrete runs of the pipeline reduce inside the kernel. -/
def pyMax (a b : ℚ) : ℚ := if a < b then b else a

/-- Classification accumulator threaded through the pipeline stages; the fields
and their initial values are the dict literal at content_classifier.py lines 64-77. -/
structure ClassificationResult where
  content_type : String
  content_category : String
  content_description : String
  content_title : String
  activity_type : String
  is_productive : Bool
  productivity_score : ℚ
  detection_method : String
  confidence : ℚ
  nsfw_score : ℚ
  is_nsfw : Bool
  extracted_text : String
deriving Repr, DecidableEq

/-- Initial result dict of ContentClassifier.classify. -/
def initResult : ClassificationResult :=
  { content_type := "unknown"
    content_category := ""
    content_description := ""
    content_title := ""
    activity_type := "neutral"
    is_productive := false
    productivity_score := 0
    detection_method := "rules"
    confidence := 0
    nsfw_score := 0
    is_nsfw := false
    extracted_text := "" }

/-- Result dict of URLAnalyzer.analyze as read by the merge (missing or falsy
entry modelled by the empty string). -/
structure UrlResult where
  website : String := ""
  content_type : String := ""
  activity : String := ""
deriving Repr, DecidableEq

/-- ContentClassifier._merge_url_result. -/
def mergeUrlResult (r : ClassificationResult) (u : UrlResult) : ClassificationResult :=
  let r := if u.website ≠ "" then { r with content_type := "browser" } else r
  let r := if u.content_type ≠ "" then { r with content_category := u.content_type } else r
  if u.activity ≠ "" then
    { r with activity_type := u.activity, confidence := pyMax r.confidence (mkRat 7 10) }
  else r

/-- Result dict of OCRAnalyzer.analyze_text as read by the merge. -/
structure OcrResult where
  programming_language : String := ""
  content_suggestions : List String := []
deriving Repr, DecidableEq

/-- ContentClassifier._merge_ocr_result. -/
def mergeOcrResult (r : ClassificationResult) (o : OcrResult) : ClassificationResult :=
  let r :=
    if o.programming_language ≠ "" then
      { r with content_type := "code"
               content_category := "coding_" ++ o.programming_language
               activity_type := "productive"
               confidence := pyMax r.confidence (mkRat 8 10) }
    else r
  if o.content_suggestions ≠ [] then
    if o.content_suggestions.contains "tutorial" then { r with activity_type := "educational" }
    else if o.content_suggestions.contains "entertainment" then
      { r with activity_type := "entertainment" }
    else r
  else r

/-- Result dict of ImageAnalyzer.analyze_image as read by the merge. -/
structure ImgResult where
  layout_type : String := ""
deriving Repr, DecidableEq

/-- ContentClassifier._merge_image_result. -/
def mergeImageResult (r : ClassificationResult) (i : ImgResult) : ClassificationResult :=
  if i.layout_type = "simple" then
    if r.content_type = "unknown" then { r with content_type := "video" } else r
  else r

/-- Result dict of CLIPAnalyzer.classify as read by the merge. -/
structure ClipResult where
  classification : String := ""
  confidence : ℚ := 0
deriving Repr, DecidableEq

/-- Fixed category-to-activity lookup table inside _merge_clip_result. -/
def clipActivityMap : List (String × String) :=
  [("tutorial", "educational"), ("coding", "productive"), ("documentary", "educational"),
   ("gaming", "gaming"), ("anime", "entertainment"), ("cartoon", "entertainment"),
   ("music_video", "entertainment"), ("movie_series", "entertainment"),
   ("comedy", "entertainment"), ("vlog", "entertainment"), ("live_stream", "entertainment"),
   ("social_feed", "social_media"), ("news", "news"), ("sports", "entertainment"),
   ("adult", "adult")]

/-- ContentClassifier._merge_clip_result. -/
def mergeClipResult (r : ClassificationResult) (c : ClipResult) : ClassificationResult :=
  if c.confidence > r.confidence then
    if c.classification ≠ "" then
      { r with content_category := c.classification
               confidence := c.confidence
               detection_method := "clip"
               activity_type := (clipActivityMap.lookup c.classification).getD r.activity_type }
    else r
  else r

/-- Step 4 of classify: the merge is attempted only when the CLIP confidence
exceeds 0.3 (content_classifier.py lines 109-110). -/
def clipStage (r : ClassificationResult) (c : ClipResult) : ClassificationResult :=
  if c.confidence > mkRat 3 10 then mergeClipResult r c else r

/-- Result dict of NSFWDetector.detect as read by classify. -/
structure NsfwResult where
  nsfw_score : ℚ := 0
  is_nsfw : Bool := false
deriving Repr, DecidableEq

/-- Step 5 of classify given a successful NSFW detector call
(content_classifier.py lines 117-123). -/
def nsfwStage (r : ClassificationResult) (n : NsfwResult) : ClassificationResult :=
  let r := { r with nsfw_score := n.nsfw_score, is_nsfw := n.is_nsfw }
  if r.is_nsfw then
    { r with activity_type := "adult", content_category := "adult_content" }
  else r

/-- App-name substrings recognised as code editors in _apply_rules. -/
def editorsList : List String := ["code", "sublime", "atom", "vim", "emacs", "idea", "pycharm"]

/-- App-name substrings recognised as terminals in _apply_rules. -/
def terminalsList : List String := ["terminal", "konsole", "xterm", "alacritty", "kitty"]

/-- App-name substrings recognised as video players in _apply_rules. -/
def playersList : List String := ["vlc", "mpv", "totem", "celluloid"]

/-- Title words marking educational YouTube content in _apply_rules. -/
def eduWordsList : List String := ["tutorial", "learn", "course", "how to"]

/-- Title substrings marking social sites in _apply_rules. -/
def socialsList : List String := ["facebook", "twitter", "instagram", "reddit"]

/-- ContentClassifier._apply_rules (step 6, the rule-based fallback stage). -/
def applyRules (r : ClassificationResult) (app_name window_title : String)
    (is_browser : Bool) : ClassificationResult :=
  let app_lower := pyLower app_name
  let title_lower := pyLower window_title
  if editorsList.any (fun ed => substrOf ed app_lower) then
    { r with content_type := "code", activity_type := "productive",
             confidence := pyMax r.confidence (mkRat 9 10) }
  else if terminalsList.any (fun t => substrOf t app_lower) then
    { r with content_type := "terminal", activity_type := "productive",
             confidence := pyMax r.confidence (mkRat 85 100) }
  else if playersList.any (fun p => substrOf p app_lower) then
    { r with content_type := "video", activity_type := "entertainment",
             confidence := pyMax r.confidence (mkRat 8 10) }
  else if is_browser then
    if substrOf "youtube" title_lower then
      let r := { r with content_type := "video", content_category := "youtube" }
      if eduWordsList.any (fun w => substrOf w title_lower) then
        { r with activity_type := "educational" }
      else { r with activity_type := "entertainment" }
    else if substrOf "github" title_lower then
      { r with content_type := "code", activity_type := "productive" }
    else if socialsList.any (fun s => substrOf s title_lower) then
      { r with content_type := "social_feed", activity_type := "social_media" }
    else r
  else r

/-- ContentClassifier._calculate_productivity: fixed weight table with default 0. -/
def calcProductivity (activity_type : String) : ℚ :=
  if activity_type = "productive" then mkRat 1 1
  else if activity_type = "educational" then mkRat 8 10
  else if activity_type = "neutral" then mkRat 0 1
  else if activity_type = "news" then mkRat (-1) 10
  else if activity_type = "shopping" then mkRat (-2) 10
  else if activity_type = "entertainment" then mkRat (-3) 10
  else if activity_type = "social_media" then mkRat (-4) 10
  else if activity_type = "gaming" then mkRat (-3) 10
  else if activity_type = "adult" then mkRat (-1) 1
  else mkRat 0 1

/-- ContentClassifier._generate_description (window_title is accepted and unused,
as in the source). -/
def generateDescription (r : ClassificationResult) (app_name window_title : String) : String :=
  if r.activity_type = "productive" then
    if substrOf "code" r.content_category then "Coding in " ++ app_name
    else "Working in " ++ app_name
  else if r.activity_type = "educational" then
    "Learning: " ++ pyTitle (pyReplaceUnderscore r.content_category)
  else if r.activity_type = "entertainment" then
    if r.content_category ≠ "" then "Watching: " ++ pyTitle (pyReplaceUnderscore r.content_category)
    else "Entertainment in " ++ app_name
  else if r.activity_type = "social_media" then "Browsing social media"
  else if r.activity_type = "gaming" then "Playing game"
  else if app_name ≠ "" then "Using " ++ app_name
  else "Unknown activity"

/-- Active-window metadata returned by the window probe (monitor.py WindowInfo). -/
structure WindowInfo where
  window_id : ℕ := 0
  window_title : String := ""
  app_name : String := ""
  process_name : String := ""
  process_id : ℕ := 0
  wm_class : String := ""
  is_browser : Bool := false
  url : String := ""
deriving Repr, DecidableEq

/-- Results of the analyzer calls performed by classify, supplied as inputs:
the analyzers are pluggable collaborators. Except.error models a call that
raises; only the CLIP and NSFW calls can raise into classify, and classify
wraps exactly those two in their own handlers. -/
structure AnalyzerEnv where
  urlResult : Option UrlResult := none
  ocrText : String := ""
  ocrResult : OcrResult := {}
  imgResult : ImgResult := {}
  clipResult : Except Unit ClipResult := Except.error ()
  nsfwResult : Except Unit NsfwResult := Except.error ()

/-- Steps 1-5 of ContentClassifier.classify: URL, OCR, image, CLIP and NSFW
stages merged in order into the initial result. The screenshot argument is the
truthiness of the screenshot parameter; url is the window URL. -/
def classifyStages (env : AnalyzerEnv) (screenshot : Bool) (url : String) :
    ClassificationResult :=
  let r := initResult
  let r := if url ≠ "" then
      (match env.urlResult with
       | some u => mergeUrlResult r u
       | none => r)
    else r
  let r := if screenshot then
      (if env.ocrText ≠ "" then
        mergeOcrResult { r with extracted_text := ⟨env.ocrText.data.take 500⟩ } env.ocrResult
      else r)
    else r
  let r := if screenshot then mergeImageResult r env.imgResult else r
  let r := if screenshot then
      (match env.clipResult with
       | Except.ok c => clipStage r c
       | Except.error _ => r)
    else r
  let r := if screenshot then
      (match env.nsfwResult with
       | Except.ok n => nsfwStage r n
       | Except.error _ => r)
    else r
  r

/-- Final steps of ContentClassifier.classify (lines 130-136): derive the
productivity score from the activity type, set is_productive, and synthesize a
description when none was produced. -/
def finishResult (r : ClassificationResult) (app_name window_title : String) :
    ClassificationResult :=
  let r := { r with productivity_score := calcProductivity r.activity_type }
  let r := { r with is_productive := decide (r.productivity_score > 0) }
  if r.content_description = "" then
    { r with content_description := generateDescription r app_name window_title }
  else r

/-- ContentClassifier.classify: the five merge stages, then the rule-based
fallback, then the final productivity and description steps. The window
attributes are read with getattr defaults when window_info is missing. -/
def classify (env : AnalyzerEnv) (screenshot : Bool) (window_info : Option WindowInfo) :
    ClassificationResult :=
  let app_name := match window_info with | some w => w.app_name | none => ""
  let window_title := match window_info with | some w => w.window_title | none => ""
  let url := match window_info with | some w => w.url | none => ""
  let is_browser := match window_info with | some w => w.is_browser | none => false
  finishResult (applyRules (classifyStages env screenshot url) app_name window_title is_browser)
    app_name window_title

/-- Monitoring section of the configuration (config.py MonitoringConfig). -/
structure MonitoringConfig where
  screenshot_interval : ℕ := 30
  idle_threshold : ℕ := 300
deriving Repr, DecidableEq

/-- Detection section of the configuration (config.py DetectionConfig; only the
field the capture cycle reads). -/
structure DetectionConfig where
  skip_unchanged : Bool := true
deriving Repr, DecidableEq

/-- Privacy section of the configuration (config.py PrivacyConfig exclusion lists). -/
structure PrivacyConfig where
  excluded_apps : List String := []
  excluded_title_keywords : List String := []
deriving Repr, DecidableEq

/-- Configuration sections consumed by the daemon capture cycle. -/
structure Config where
  monitoring : MonitoringConfig := {}
  detection : DetectionConfig := {}
  privacy : PrivacyConfig := {}
deriving Repr, DecidableEq

/-- Config.is_app_excluded: case-insensitive substring match against the
excluded-app list. -/
def Config.isAppExcluded (cfg : Config) (app_name : String) : Bool :=
  cfg.privacy.excluded_apps.any (fun exc => substrOf (pyLower exc) (pyLower app_name))

/-- Config.is_title_excluded: case-insensitive keyword containment in the title. -/
def Config.isTitleExcluded (cfg : Config) (title : String) : Bool :=
  cfg.privacy.excluded_title_keywords.any (fun kw => substrOf (pyLower kw) (pyLower title))

namespace WindowMonitor

/-- WindowMonitor.is_user_idle (monitor.py lines 407-410): the body is a TODO
and returns False for every threshold. -/
def isUserIdle (threshold : ℕ) : Bool :=
  false

end WindowMonitor

/-- Subset of the Activity record (storage/models.py) that the daemon-side
claims mention, with the source defaults. -/
structure Activity where
  timestamp : ℕ := 0
  app_name : String := ""
  window_title : String := ""
  content_type : String := "unknown"
  content_description : String := ""
  activity_type : String := "unknown"
  duration : ℕ := 30
  is_idle : Bool := false
deriving Repr, DecidableEq

/-- Item placed on the bounded analysis queue by the scheduler: the dict with
window snapshot, screenshot and timestamp (the screenshot payload is opaque to
the queue discipline and omitted). -/
structure QItem where
  window_info : WindowInfo
  timestamp : ℕ
deriving Repr, DecidableEq

/-- Python exception distinguished by the daemon model: the attribute lookup
failure raised when a method is missing from a class. -/
inductive PyExc
  | attributeError
deriving Repr, DecidableEq

/-- DaemonState (daemon.py lines 28-39), with ℕ timestamps. -/
structure DaemonState where
  is_running : Bool := false
  is_paused : Bool := false
  last_capture_time : Option ℕ := none
  last_analysis_time : Option ℕ := none
  last_window : Option WindowInfo := none
  total_captures : ℕ := 0
  total_analyses : ℕ := 0
  errors : ℕ := 0
  start_time : Option ℕ := none
deriving Repr, DecidableEq

/-- DaemonState() as constructed in ContentTrackerDaemon.__init__. -/
def DaemonState.init : DaemonState := {}

/-- Capacity of the bounded analysis queue, fixed at construction in
ContentTrackerDaemon.__init__: queue.Queue with maxsize 100. -/
def analysisQueueMaxsize : ℕ := 100

/-- External probe results observed during one scheduler tick: the active-window
query result, whether the screen capture returned an image, and the current time. -/
structure TickEnv where
  active_window : Option WindowInfo := none
  screenshot_ok : Bool := true
  now : ℕ := 0
deriving Repr, DecidableEq

/-- Everything one call of _do_capture_cycle produces: the daemon state and
queue after the in-place mutations that executed, the records the cycle inserted
directly into the database, and the exception escaping the call, if any.
Mutations performed before a raise persist, as they do in Python. -/
structure CycleResult where
  state : DaemonState
  queue : List QItem
  inserted : List Activity
  exc : Option PyExc
deriving Repr, DecidableEq

/-- ContentTrackerDaemon._should_exclude_window (daemon.py lines 492-505). -/
def shouldExcludeWindow (cfg : Config) (w : WindowInfo) : Bool :=
  cfg.isAppExcluded w.app_name || cfg.isAppExcluded w.process_name ||
    cfg.isTitleExcluded w.window_title

/-- Record built by ContentTrackerDaemon._record_idle_activity. -/
def idleActivity (cfg : Config) (now : ℕ) : Activity :=
  { timestamp := now
    app_name := "System"
    window_title := "Idle"
    activity_type := "idle"
    content_type := "idle"
    content_description := "User is idle"
    is_idle := true
    duration := cfg.monitoring.screenshot_interval }

/-- ContentTrackerDaemon._do_capture_cycle (daemon.py lines 271-324).
Two calls in this method name attributes that WindowMonitor does not define:
has_window_changed (line 294, reached when skip_unchanged is set) and
update_last_window (line 320, reached after every successful enqueue attempt);
each lookup raises AttributeError, modelled by returning the exception with the
mutations made so far. The assignment of state.last_window on line 321 sits
after the update_last_window call and therefore never executes. The put_nowait
call appends to the queue when it is below capacity and otherwise raises
queue.Full, which the source catches and turns into a dropped-capture warning. -/
def doCaptureCycle (cfg : Config) (maxsize : ℕ) (env : TickEnv)
    (s : DaemonState) (q : List QItem) : CycleResult :=
  if WindowMonitor.isUserIdle 300 then
    { state := s, queue := q, inserted := [idleActivity cfg env.now], exc := none }
  else
    match env.active_window with
    | none => { state := s, queue := q, inserted := [], exc := none }
    | some w =>
      if shouldExcludeWindow cfg w then
        { state := s, queue := q, inserted := [], exc := none }
      else if cfg.detection.skip_unchanged then
        { state := s, queue := q, inserted := [], exc := some PyExc.attributeError }
      else if env.screenshot_ok = false then
        { state := s, queue := q, inserted := [], exc := none }
      else
        let s2 := { s with total_captures := s.total_captures + 1,
                           last_capture_time := some env.now }
        let q2 := if q.length < maxsize then q ++ [⟨w, env.now⟩] else q
        { state := s2, queue := q2, inserted := [], exc := some PyExc.attributeError }

/-- State and queue after one tick of the main loop body as seen by the
scheduler (daemon.py lines 252-269): paused ticks do nothing, and any exception
out of _do_capture_cycle is caught, counted in errors, and the loop continues. -/
structure TickOutcome where
  state : DaemonState
  queue : List QItem
  inserted : List Activity
deriving Repr, DecidableEq

/-- One iteration of ContentTrackerDaemon._main_loop around _do_capture_cycle. -/
def mainLoopTick (cfg : Config) (maxsize : ℕ) (env : TickEnv)
    (s : DaemonState) (q : List QItem) : TickOutcome :=
  if s.is_paused then { state := s, queue := q, inserted := [] }
  else
    let c := doCaptureCycle cfg maxsize env s q
    match c.exc with
    | some _ =>
      { state := { c.state with errors := c.state.errors + 1 },
        queue := c.queue, inserted := c.inserted }
    | none => { state := c.state, queue := c.queue, inserted := c.inserted }

/-- Iterated main-loop ticks over a list of probe observations. -/
def runTicks (cfg : Config) (maxsize : ℕ) :
    List TickEnv → DaemonState → List QItem → TickOutcome
  | [], s, q => { state := s, queue := q, inserted := [] }
  | e :: es, s, q =>
    let t := mainLoopTick cfg maxsize e s q
    let rest := runTicks cfg maxsize es t.state t.queue
    { state := rest.state, queue := rest.queue, inserted := t.inserted ++ rest.inserted }

/-- Daemon object: its mutable state, the shared stop event, and a history
counter recording how many times _cleanup has executed (instrumentation used to
state that cleanup runs exactly once per shutdown). -/
structure Daemon where
  state : DaemonState := {}
  stop_event : Bool := false
  cleanup_runs : ℕ := 0
deriving Repr, DecidableEq

namespace ContentTrackerDaemon

/-- ContentTrackerDaemon.start (daemon.py lines 150-191): a running daemon is
left unchanged with a warning; otherwise components are initialized, is_running
and start_time are set and the stop event cleared. No counter is touched. -/
def start (d : Daemon) (now : ℕ) : Daemon :=
  if d.state.is_running then d
  else
    { d with state := { d.state with is_running := true, start_time := some now }
             stop_event := false }

/-- ContentTrackerDaemon.stop (daemon.py lines 193-215): a non-running daemon
returns immediately; otherwise is_running is cleared, the stop event set, the
threads joined, and _cleanup runs. -/
def stop (d : Daemon) : Daemon :=
  if d.state.is_running = false then d
  else
    { d with state := { d.state with is_running := false }
             stop_event := true
             cleanup_runs := d.cleanup_runs + 1 }

/-- Snapshot returned by ContentTrackerDaemon.get_status (daemon.py lines 538-550). -/
structure Status where
  is_running : Bool
  is_paused : Bool
  total_captures : ℕ
  total_analyses : ℕ
  errors : ℕ
  last_capture : Option ℕ
  last_window : Option WindowInfo
  queue_size : ℕ
deriving Repr, DecidableEq

/-- ContentTrackerDaemon.get_status. -/
def getStatus (d : Daemon) (q : List QItem) : Status :=
  { is_running := d.state.is_running
    is_paused := d.state.is_paused
    total_captures := d.state.total_captures
    total_analyses := d.state.total_analyses
    errors := d.state.errors
    last_capture := d.state.last_capture_time
    last_window := d.state.last_window
    queue_size := q.length }

end ContentTrackerDaemon

/-! Helper lemmas shared by several claim theorems. -/

/-- Appending to a nonempty string yields a nonempty string. -/
theorem strAppend_ne_empty (s t : String) (h : s ≠ "") : s ++ t ≠ "" := by
  obtain ⟨a⟩ := s
  obtain ⟨b⟩ := t
  intro hc
  cases a with
  | nil => exact h rfl
  | cons c cs =>
    have hd : (c :: (cs ++ b) : List Char) = [] := congrArg String.data hc
    exact List.noConfusion hd

/-- The description generator never returns the empty string. -/
theorem generateDescription_ne_empty (r : ClassificationResult) (a t : String) :
    generateDescription r a t ≠ "" := by
  unfold generateDescription
  split_ifs <;>
    first
      | exact strAppend_ne_empty _ _ (by decide)
      | decide

/-- The finishing step does not change the activity type. -/
theorem finishResult_activity_type (r : ClassificationResult) (a t : String) :
    (finishResult r a t).activity_type = r.activity_type := by
  simp only [finishResult]
  split <;> rfl

/-- The finishing step does not change the content type. -/
theorem finishResult_content_type (r : ClassificationResult) (a t : String) :
    (finishResult r a t).content_type = r.content_type := by
  simp only [finishResult]
  split <;> rfl

/-- The finishing step sets the productivity score from the weight table. -/
theorem finishResult_productivity_score (r : ClassificationResult) (a t : String) :
    (finishResult r a t).productivity_score = calcProductivity r.activity_type := by
  simp only [finishResult]
  split <;> rfl

/-- The finishing step sets is_productive by comparing the score with zero. -/
theorem finishResult_is_productive (r : ClassificationResult) (a t : String) :
    (finishResult r a t).is_productive = decide (calcProductivity r.activity_type > 0) := by
  simp only [finishResult]
  split <;> rfl

/-- After the finishing step the description is never empty. -/
theorem finishResult_description_ne_empty (r : ClassificationResult) (a t : String) :
    (finishResult r a t).content_description ≠ "" := by
  simp only [finishResult]
  split
  · exact generateDescription_ne_empty _ a t
  · next h => exact h

/-- On an app name matching the editor rule, _apply_rules overwrites
content_type, activity_type and confidence, whatever the earlier stages left. -/
theorem applyRules_editor (r : ClassificationResult) (a t : String) (b : Bool)
    (h : editorsList.any (fun ed => substrOf ed (pyLower a)) = true) :
    applyRules r a t b =
      { r with content_type := "code", activity_type := "productive",
               confidence := pyMax r.confidence (mkRat 9 10) } := by
  unfold applyRules
  simp only [h, if_true]

/-! Claim theorems. -/

/-- Environment for the C1 evaluation: the CLIP stage returns a benign
high-confidence classification and the NSFW detector reports is_nsfw. -/
def c1Env : AnalyzerEnv :=
  { clipResult := Except.ok { classification := "movie_series", confidence := mkRat 95 100 }
    nsfwResult := Except.ok { nsfw_score := mkRat 92 100, is_nsfw := true } }

/-- Window for the C1 evaluation: an app name matching the editor rule. -/
def c1Window : WindowInfo :=
  { app_name := "Code", window_title := "main.py - myproj - Visual Studio Code" }

/-- C1: the claim says an is_nsfw=true report forces the final activity_type to
adult for every app_name/window_title. Evaluating the pipeline shows the NSFW
stage does set adult/adult_content (and the benign CLIP classification with
confidence 0.95 had been merged before it), but the rule-based stage that runs
afterwards overwrites activity_type to productive for an editor app name, so
the final result is not adult. -/
theorem C1_nsfw_override_suppressed_by_rule_stage :
    (classifyStages c1Env true "").activity_type = "adult" ∧
    (classifyStages c1Env true "").content_category = "adult_content" ∧
    (classify c1Env true (some c1Window)).is_nsfw = true ∧
    (classify c1Env true (some c1Window)).confidence = mkRat 95 100 ∧
    (classify c1Env true (some c1Window)).activity_type = "productive" ∧
    ¬ (classify c1Env true (some c1Window)).activity_type = "adult" := by
  decide

/-- C2: classify always returns a complete result with a non-empty description,
for every combination of analyzer outcomes including raising CLIP/NSFW calls
and absent analyzers, and for a recognized editor app the rule-based fallback
stage always yields the non-default productive classification. -/
theorem C2_pipeline_degrades_gracefully :
    (∀ (env : AnalyzerEnv) (screenshot : Bool) (wi : Option WindowInfo),
      (classify env screenshot wi).content_description ≠ "") ∧
    (∀ (env : AnalyzerEnv) (screenshot : Bool) (w : WindowInfo),
      editorsList.any (fun ed => substrOf ed (pyLower w.app_name)) = true →
      (classify env screenshot (some w)).activity_type = "productive" ∧
      (classify env screenshot (some w)).content_type = "code" ∧
      (classify env screenshot (some w)).is_productive = true) := by
  constructor
  · intro env s wi
    simp only [classify]
    exact finishResult_description_ne_empty _ _ _
  · intro env s w h
    simp only [classify]
    rw [applyRules_editor _ _ _ _ h]
    refine ⟨?_, ?_, ?_⟩
    · rw [finishResult_activity_type]
    · rw [finishResult_content_type]
    · rw [finishResult_is_productive]
      rfl

/-- Witness for C2 at a concrete editor window with every analyzer absent. -/
theorem C2_witness :
    editorsList.any (fun ed => substrOf ed (pyLower "Code")) = true ∧
    (classify {} false (some { app_name := "Code" })).activity_type = "productive" :=
  ⟨by decide, (C2_pipeline_degrades_gracefully.2 {} false { app_name := "Code" } (by decide)).1⟩

/-- Environment for the C3 counterexample: the OCR stage detects a programming
language, setting content_type and activity_type before the rule stage runs. -/
def c3Env : AnalyzerEnv :=
  { ocrText := "import os", ocrResult := { programming_language := "python" } }

/-- C3 counterexample: after the OCR stage has set content_type to code and
activity_type to productive, the rule stage for a vlc app name overwrites both
fields, contradicting the claim that fields already set by earlier stages are
left unchanged. -/
theorem C3_counterexample :
    (classifyStages c3Env true "").content_type = "code" ∧
    (classifyStages c3Env true "").activity_type = "productive" ∧
    (applyRules (classifyStages c3Env true "") "vlc" "movie.mkv - VLC" false).content_type
      = "video" ∧
    (applyRules (classifyStages c3Env true "") "vlc" "movie.mkv - VLC" false).activity_type
      = "entertainment" := by
  decide

/-- C3 amended: the rule stage has no unset/default guards. Every matching
branch overwrites the fields it writes regardless of what earlier stages set:
the editor, terminal and player app branches overwrite content_type and
activity_type and raise confidence via max (to at least 0.9, 0.85 and 0.8
respectively); the browser youtube branch overwrites content_type,
content_category and activity_type; the github and social title branches
overwrite content_type and activity_type; none of the browser title branches
touches confidence. Only when no branch matches — a non-browser window with no
app rule match, or a browser window whose title matches no known site — is the
result left unchanged. -/
theorem C3_amended_rule_stage_overwrites :
    ∀ (r : ClassificationResult) (a ti : String) (b : Bool),
    (editorsList.any (fun ed => substrOf ed (pyLower a)) = false →
     terminalsList.any (fun te => substrOf te (pyLower a)) = false →
     playersList.any (fun p => substrOf p (pyLower a)) = false →
     b = false →
     applyRules r a ti b = r) ∧
    (editorsList.any (fun ed => substrOf ed (pyLower a)) = false →
     terminalsList.any (fun te => substrOf te (pyLower a)) = false →
     playersList.any (fun p => substrOf p (pyLower a)) = false →
     b = true →
     substrOf "youtube" (pyLower ti) = false →
     substrOf "github" (pyLower ti) = false →
     socialsList.any (fun so => substrOf so (pyLower ti)) = false →
     applyRules r a ti b = r) ∧
    (editorsList.any (fun ed => substrOf ed (pyLower a)) = true →
     applyRules r a ti b
       = { r with content_type := "code", activity_type := "productive",
                  confidence := pyMax r.confidence (mkRat 9 10) }) ∧
    (editorsList.any (fun ed => substrOf ed (pyLower a)) = false →
     terminalsList.any (fun te => substrOf te (pyLower a)) = true →
     applyRules r a ti b
       = { r with content_type := "terminal", activity_type := "productive",
                  confidence := pyMax r.confidence (mkRat 85 100) }) ∧
    (editorsList.any (fun ed => substrOf ed (pyLower a)) = false →
     terminalsList.any (fun te => substrOf te (pyLower a)) = false →
     playersList.any (fun p => substrOf p (pyLower a)) = true →
     applyRules r a ti b
       = { r with content_type := "video", activity_type := "entertainment",
                  confidence := pyMax r.confidence (mkRat 8 10) }) ∧
    (editorsList.any (fun ed => substrOf ed (pyLower a)) = false →
     terminalsList.any (fun te => substrOf te (pyLower a)) = false →
     playersList.any (fun p => substrOf p (pyLower a)) = false →
     b = true →
     substrOf "youtube" (pyLower ti) = true →
     eduWordsList.any (fun wo => substrOf wo (pyLower ti)) = true →
     applyRules r a ti b
       = { r with content_type := "video", content_category := "youtube",
                  activity_type := "educational" }) ∧
    (editorsList.any (fun ed => substrOf ed (pyLower a)) = false →
     terminalsList.any (fun te => substrOf te (pyLower a)) = false →
     playersList.any (fun p => substrOf p (pyLower a)) = false →
     b = true →
     substrOf "youtube" (pyLower ti) = true →
     eduWordsList.any (fun wo => substrOf wo (pyLower ti)) = false →
     applyRules r a ti b
       = { r with content_type := "video", content_category := "youtube",
                  activity_type := "entertainment" }) ∧
    (editorsList.any (fun ed => substrOf ed (pyLower a)) = false →
     terminalsList.any (fun te => substrOf te (pyLower a)) = false →
     playersList.any (fun p => substrOf p (pyLower a)) = false →
     b = true →
     substrOf "youtube" (pyLower ti) = false →
     substrOf "github" (pyLower ti) = true →
     applyRules r a ti b
       = { r with content_type := "code", activity_type := "productive" }) ∧
    (editorsList.any (fun ed => substrOf ed (pyLower a)) = false →
     terminalsList.any (fun te => substrOf te (pyLower a)) = false →
     playersList.any (fun p => substrOf p (pyLower a)) = false →
     b = true →
     substrOf "youtube" (pyLower ti) = false →
     substrOf "github" (pyLower ti) = false →
     socialsList.any (fun so => substrOf so (pyLower ti)) = true →
     applyRules r a ti b
       = { r with content_type := "social_feed", activity_type := "social_media" }) := by
  intro r a ti b
  refine ⟨?_, ?_, ?_, ?_, ?_, ?_, ?_, ?_, ?_⟩ <;>
    · intros
      simp_all only [applyRules, Bool.false_eq_true, if_false, if_true]

/-- Browser window title for the C3 witness that matches no known-site rule. -/
def c3PlainTitle : String := "an article - Mozilla Firefox"

/-- Browser window title for the C3 witness that matches the youtube rule and
none of the educational words. -/
def c3YoutubeTitle : String := "cat videos - YouTube - Mozilla Firefox"

/-- Witness for C3 amended, on the result the OCR stage filled with
content_type code, content_category coding_python and activity_type productive:
a browser window with an unrecognized title leaves that result unchanged, the
youtube branch overwrites content_category and both classification fields, and
the editor branch overwrites content_type and activity_type. -/
theorem C3_amended_witness :
    applyRules (classifyStages c3Env true "") "firefox" c3PlainTitle true
      = classifyStages c3Env true "" ∧
    applyRules (classifyStages c3Env true "") "firefox" c3YoutubeTitle true
      = { classifyStages c3Env true "" with
          content_type := "video", content_category := "youtube",
          activity_type := "entertainment" } ∧
    applyRules (classifyStages c3Env true "") "Code" "x" false
      = { classifyStages c3Env true "" with
          content_type := "code", activity_type := "productive",
          confidence := pyMax (classifyStages c3Env true "").confidence (mkRat 9 10) } :=
  ⟨(C3_amended_rule_stage_overwrites (classifyStages c3Env true "") "firefox" c3PlainTitle
      true).2.1 (by decide) (by decide) (by decide) rfl (by decide) (by decide) (by decide),
   (C3_amended_rule_stage_overwrites (classifyStages c3Env true "") "firefox" c3YoutubeTitle
      true).2.2.2.2.2.2.1 (by decide) (by decide) (by decide) rfl (by decide) (by decide),
   (C3_amended_rule_stage_overwrites (classifyStages c3Env true "") "Code" "x"
      false).2.2.1 (by decide)⟩

/-- C6: the CLIP stage changes the merged result only when its confidence
exceeds both 0.3 and the current merged confidence (a change implies both
bounds), and the merged confidence never decreases across this stage. -/
theorem C6_clip_merge_monotonic :
    ∀ (r : ClassificationResult) (c : ClipResult),
    (¬(c.confidence > mkRat 3 10 ∧ c.confidence > r.confidence) → clipStage r c = r) ∧
    (clipStage r c ≠ r → c.confidence > mkRat 3 10 ∧ c.confidence > r.confidence) ∧
    r.confidence ≤ (clipStage r c).confidence := by
  intro r c
  have h1 : ¬(c.confidence > mkRat 3 10 ∧ c.confidence > r.confidence) → clipStage r c = r := by
    intro h
    by_cases hA : c.confidence > mkRat 3 10
    · have hB : ¬ c.confidence > r.confidence := fun hb => h ⟨hA, hb⟩
      simp [clipStage, mergeClipResult, hA, hB]
    · simp [clipStage, hA]
  refine ⟨h1, ?_, ?_⟩
  · intro hne
    by_contra hc
    exact hne (h1 hc)
  · by_cases hA : c.confidence > mkRat 3 10
    · by_cases hB : c.confidence > r.confidence
      · by_cases hC : c.classification = ""
        · simp [clipStage, mergeClipResult, hA, hB, hC]
        · simp [clipStage, mergeClipResult, hA, hB, hC]
          exact le_of_lt hB
      · simp [clipStage, mergeClipResult, hA, hB]
    · simp [clipStage, hA]

/-- Result for the C6 witness: a merged result with confidence 0.9. -/
def c6Result : ClassificationResult := { initResult with confidence := mkRat 9 10 }

/-- CLIP output for the C6 witness: confidence 0.5, below the merged 0.9. -/
def c6Clip : ClipResult := { classification := "gaming", confidence := mkRat 5 10 }

/-- Witness for C6: a lower-confidence CLIP result leaves the merge unchanged
and the confidence does not decrease. -/
theorem C6_witness :
    clipStage c6Result c6Clip = c6Result ∧
    c6Result.confidence ≤ (clipStage c6Result c6Clip).confidence :=
  ⟨(C6_clip_merge_monotonic c6Result c6Clip).1 (by decide),
   (C6_clip_merge_monotonic c6Result c6Clip).2.2⟩

/-- C7: classify derives the productivity score from the final activity type
through the fixed weight table (with every unlisted type scoring 0) and sets
is_productive exactly when the score is positive. -/
theorem C7_productivity_from_weight_table :
    (∀ (env : AnalyzerEnv) (s : Bool) (wi : Option WindowInfo),
      (classify env s wi).productivity_score
        = calcProductivity (classify env s wi).activity_type ∧
      ((classify env s wi).is_productive = true ↔ (classify env s wi).productivity_score > 0)) ∧
    (∀ ty : String,
      ty ∉ (["productive", "educational", "neutral", "news", "shopping", "entertainment",
             "social_media", "gaming", "adult"] : List String) →
      calcProductivity ty = 0) ∧
    (calcProductivity "productive" = mkRat 1 1 ∧
     calcProductivity "educational" = mkRat 8 10 ∧
     calcProductivity "neutral" = 0 ∧
     calcProductivity "news" = mkRat (-1) 10 ∧
     calcProductivity "shopping" = mkRat (-2) 10 ∧
     calcProductivity "entertainment" = mkRat (-3) 10 ∧
     calcProductivity "social_media" = mkRat (-4) 10 ∧
     calcProductivity "gaming" = mkRat (-3) 10 ∧
     calcProductivity "adult" = mkRat (-1) 1) := by
  refine ⟨?_, ?_, by decide⟩
  · intro env s wi
    constructor
    · simp only [classify]
      rw [finishResult_productivity_score, finishResult_activity_type]
    · simp only [classify]
      rw [finishResult_is_productive, finishResult_productivity_score]
      exact decide_eq_true_iff
  · intro ty h
    simp only [List.mem_cons, List.not_mem_nil, or_false, not_or] at h
    obtain ⟨h1, h2, h3, h4, h5, h6, h7, h8, h9⟩ := h
    simp [calcProductivity, h1, h2, h3, h4, h5, h6, h7, h8, h9]

/-- Witness for C7: the unlisted idle type scores 0. -/
theorem C7_witness :
    ("idle" ∉ (["productive", "educational", "neutral", "news", "shopping", "entertainment",
                "social_media", "gaming", "adult"] : List String)) ∧
    calcProductivity "idle" = 0 :=
  ⟨by decide, C7_productivity_from_weight_table.2.1 "idle" (by decide)⟩

/-- C4: with skip_unchanged enabled, every tick that reaches the unchanged-window
check raises AttributeError (has_window_changed does not exist on WindowMonitor),
which the main loop catches and counts: while no screenshot is captured, no record
written and no duration extended, the errors counter is incremented — contradicting
the claim that such ticks raise no error. -/
theorem C4_skip_unchanged_tick_raises :
    ∀ (cfg : Config) (maxsize : ℕ) (env : TickEnv) (s : DaemonState) (q : List QItem)
      (w : WindowInfo),
    cfg.detection.skip_unchanged = true →
    s.is_paused = false →
    env.active_window = some w →
    shouldExcludeWindow cfg w = false →
    (mainLoopTick cfg maxsize env s q).state.errors = s.errors + 1 ∧
    (mainLoopTick cfg maxsize env s q).state.total_captures = s.total_captures ∧
    (mainLoopTick cfg maxsize env s q).state.last_window = s.last_window ∧
    (mainLoopTick cfg maxsize env s q).queue = q ∧
    (mainLoopTick cfg maxsize env s q).inserted = [] ∧
    (doCaptureCycle cfg maxsize env s q).exc = some PyExc.attributeError := by
  intro cfg maxsize env s q w h1 h2 h3 h4
  have hcycle : doCaptureCycle cfg maxsize env s q
      = { state := s, queue := q, inserted := [], exc := some PyExc.attributeError } := by
    simp [doCaptureCycle, WindowMonitor.isUserIdle, h1, h3, h4]
  simp [mainLoopTick, h2, hcycle]

/-- Window used by the C4 witness. -/
def c4Window : WindowInfo := { app_name := "firefox", window_title := "Mozilla Firefox" }

/-- Probe observations for the C4 witness tick. -/
def c4Env : TickEnv := { active_window := some c4Window, screenshot_ok := true, now := 7 }

/-- Witness for C4: the default configuration has skip_unchanged enabled and a
plain tick on a fresh daemon increments errors without touching the queue. -/
theorem C4_witness :
    ({} : Config).detection.skip_unchanged = true ∧
    (mainLoopTick {} analysisQueueMaxsize c4Env {} []).state.errors
      = ({} : DaemonState).errors + 1 ∧
    (doCaptureCycle {} analysisQueueMaxsize c4Env {} []).exc = some PyExc.attributeError :=
  ⟨by decide,
   (C4_skip_unchanged_tick_raises {} analysisQueueMaxsize c4Env {} [] c4Window
      (by decide) (by decide) rfl (by decide)).1,
   (C4_skip_unchanged_tick_raises {} analysisQueueMaxsize c4Env {} [] c4Window
      (by decide) (by decide) rfl (by decide)).2.2.2.2.2⟩

/-- Configuration with the skip-unchanged optimization disabled, so the C5 ticks
reach the capture and enqueue code. -/
def c5Cfg : Config := { detection := { skip_unchanged := false } }

/-- First window for the C5 capacity run. -/
def c5WindowA : WindowInfo := { app_name := "firefox", window_title := "tab one" }

/-- Second window for the C5 capacity run. -/
def c5WindowB : WindowInfo := { app_name := "firefox", window_title := "tab two" }

/-- Third window for the C5 capacity run. -/
def c5WindowC : WindowInfo := { app_name := "firefox", window_title := "tab three" }

/-- Probe observations for one successful C5 capture tick. -/
def c5Env (n : ℕ) (w : WindowInfo) : TickEnv :=
  { active_window := some w, screenshot_ok := true, now := n }

/-- C5: a successful capture tick increments total_captures, records
last_capture_time, and enqueues without blocking, dropping the item exactly when
the queue is at capacity (three ticks against capacity 2 keep the first two items
in FIFO order and drop only the third, with all three captures counted). But
last_window is never recorded — the update_last_window call raises AttributeError
first, so the daemon-state assignment below it is unreachable and every such tick
also increments errors, contradicting the claim. -/
theorem C5_capture_tick_effects :
    (∀ (cfg : Config) (maxsize : ℕ) (env : TickEnv) (s : DaemonState) (q : List QItem)
       (w : WindowInfo),
     cfg.detection.skip_unchanged = false →
     s.is_paused = false →
     env.active_window = some w →
     shouldExcludeWindow cfg w = false →
     env.screenshot_ok = true →
     (mainLoopTick cfg maxsize env s q).state.total_captures = s.total_captures + 1 ∧
     (mainLoopTick cfg maxsize env s q).state.last_capture_time = some env.now ∧
     (mainLoopTick cfg maxsize env s q).queue
       = (if q.length < maxsize then q ++ [⟨w, env.now⟩] else q) ∧
     (mainLoopTick cfg maxsize env s q).state.last_window = s.last_window ∧
     (mainLoopTick cfg maxsize env s q).state.errors = s.errors + 1) ∧
    (runTicks c5Cfg 2 [c5Env 1 c5WindowA, c5Env 2 c5WindowB, c5Env 3 c5WindowC] {} []).queue
      = [⟨c5WindowA, 1⟩, ⟨c5WindowB, 2⟩] ∧
    (runTicks c5Cfg 2 [c5Env 1 c5WindowA, c5Env 2 c5WindowB, c5Env 3 c5WindowC]
        {} []).state.total_captures = 3 := by
  refine ⟨?_, by decide, by decide⟩
  intro cfg maxsize env s q w h1 h2 h3 h4 h5
  have hcycle : doCaptureCycle cfg maxsize env s q
      = { state := { s with total_captures := s.total_captures + 1,
                            last_capture_time := some env.now }
          queue := if q.length < maxsize then q ++ [⟨w, env.now⟩] else q
          inserted := []
          exc := some PyExc.attributeError } := by
    simp [doCaptureCycle, WindowMonitor.isUserIdle, h1, h3, h4, h5]
  simp [mainLoopTick, h2, hcycle]

/-- Witness for C5 at a concrete successful capture tick on a fresh daemon. -/
theorem C5_witness :
    c5Cfg.detection.skip_unchanged = false ∧
    (mainLoopTick c5Cfg analysisQueueMaxsize (c5Env 1 c5WindowA) {} []).state.total_captures
      = ({} : DaemonState).total_captures + 1 ∧
    (mainLoopTick c5Cfg analysisQueueMaxsize (c5Env 1 c5WindowA) {} []).state.last_window
      = ({} : DaemonState).last_window :=
  ⟨by decide,
   (C5_capture_tick_effects.1 c5Cfg analysisQueueMaxsize (c5Env 1 c5WindowA) {} [] c5WindowA
      (by decide) (by decide) rfl (by decide) (by decide)).1,
   (C5_capture_tick_effects.1 c5Cfg analysisQueueMaxsize (c5Env 1 c5WindowA) {} [] c5WindowA
      (by decide) (by decide) rfl (by decide) (by decide)).2.2.2.1⟩

/-- Daemon whose previous run accumulated nonzero counters, now stopped. -/
def c8Daemon : Daemon :=
  { state := { total_captures := 5, total_analyses := 4, errors := 3 } }

/-- C8 counterexample: starting from the stopped state with nonzero counters,
start leaves total_captures at 5 rather than resetting it to zero. -/
theorem C8_counterexample :
    c8Daemon.state.is_running = false ∧
    (ContentTrackerDaemon.start c8Daemon 100).state.is_running = true ∧
    (ContentTrackerDaemon.start c8Daemon 100).state.total_captures = 5 ∧
    ¬ (ContentTrackerDaemon.start c8Daemon 100).state.total_captures = 0 := by
  decide

/-- C8 amended: the counters are zero only in the state constructed once in
the daemon constructor; start from stopped sets is_running and start_time and
clears the stop event but leaves total_captures, total_analyses and errors
unchanged, so a start following a stop carries the previous counters over. -/
theorem C8_amended_start_preserves_counters :
    ∀ (d : Daemon) (now : ℕ), d.state.is_running = false →
    (ContentTrackerDaemon.start d now).state.is_running = true ∧
    (ContentTrackerDaemon.start d now).state.start_time = some now ∧
    (ContentTrackerDaemon.start d now).stop_event = false ∧
    (ContentTrackerDaemon.start d now).state.total_captures = d.state.total_captures ∧
    (ContentTrackerDaemon.start d now).state.total_analyses = d.state.total_analyses ∧
    (ContentTrackerDaemon.start d now).state.errors = d.state.errors ∧
    DaemonState.init.total_captures = 0 ∧
    DaemonState.init.total_analyses = 0 ∧
    DaemonState.init.errors = 0 := by
  intro d now h
  simp [ContentTrackerDaemon.start, h, DaemonState.init]

/-- Witness for C8 amended at the stopped daemon with nonzero counters. -/
theorem C8_amended_witness :
    c8Daemon.state.is_running = false ∧
    (ContentTrackerDaemon.start c8Daemon 100).state.total_captures
      = c8Daemon.state.total_captures :=
  ⟨by decide, (C8_amended_start_preserves_counters c8Daemon 100 (by decide)).2.2.2.1⟩

/-- C9: stopping a running daemon runs cleanup exactly once, a second stop is a
no-op returning the daemon unchanged, and the status reported afterwards has
is_running false. -/
theorem C9_stop_idempotent :
    ∀ (d : Daemon) (q : List QItem), d.state.is_running = true →
    ContentTrackerDaemon.stop (ContentTrackerDaemon.stop d) = ContentTrackerDaemon.stop d ∧
    (ContentTrackerDaemon.stop d).cleanup_runs = d.cleanup_runs + 1 ∧
    (ContentTrackerDaemon.stop (ContentTrackerDaemon.stop d)).cleanup_runs
      = d.cleanup_runs + 1 ∧
    (ContentTrackerDaemon.getStatus (ContentTrackerDaemon.stop d) q).is_running = false := by
  intro d q h
  have h1 : ContentTrackerDaemon.stop d
      = { d with state := { d.state with is_running := false }
                 stop_event := true
                 cleanup_runs := d.cleanup_runs + 1 } := by
    simp [ContentTrackerDaemon.stop, h]
  have h2 : ContentTrackerDaemon.stop (ContentTrackerDaemon.stop d)
      = ContentTrackerDaemon.stop d := by
    rw [h1]
    simp [ContentTrackerDaemon.stop]
  refine ⟨h2, by rw [h1], by rw [h2, h1], by rw [h1]; rfl⟩

/-- Running daemon used by the C9 witness. -/
def c9Daemon : Daemon := { state := { is_running := true, total_captures := 2 } }

/-- Witness for C9 on a concrete running daemon. -/
theorem C9_witness :
    ContentTrackerDaemon.stop (ContentTrackerDaemon.stop c9Daemon)
      = ContentTrackerDaemon.stop c9Daemon ∧
    (ContentTrackerDaemon.getStatus (ContentTrackerDaemon.stop c9Daemon) []).is_running
      = false :=
  ⟨(C9_stop_idempotent c9Daemon [] (by decide)).1,
   (C9_stop_idempotent c9Daemon [] (by decide)).2.2.2⟩

/-- C10: is_user_idle returns false for every threshold, so the idle branch of
the capture cycle is unreachable: no tick ever inserts a record directly, and in
particular no is_idle record is ever produced by the scheduler. -/
theorem C10_idle_branch_unreachable :
    (∀ threshold : ℕ, WindowMonitor.isUserIdle threshold = false) ∧
    (∀ (cfg : Config) (maxsize : ℕ) (env : TickEnv) (s : DaemonState) (q : List QItem),
      (doCaptureCycle cfg maxsize env s q).inserted = []) ∧
    (∀ (cfg : Config) (maxsize : ℕ) (env : TickEnv) (s : DaemonState) (q : List QItem),
      (mainLoopTick cfg maxsize env s q).inserted = []) := by
  have hcycle : ∀ (cfg : Config) (maxsize : ℕ) (env : TickEnv) (s : DaemonState)
      (q : List QItem), (doCaptureCycle cfg maxsize env s q).inserted = [] := by
    intro cfg maxsize env s q
    obtain ⟨aw, sok, now⟩ := env
    cases aw with
    | none => rfl
    | some w =>
      simp only [doCaptureCycle]
      split_ifs <;> simp_all [WindowMonitor.isUserIdle]
  refine ⟨fun _ => rfl, hcycle, ?_⟩
  intro cfg maxsize env s q
  simp only [mainLoopTick]
  split
  · rfl
  · split <;> simpa using hcycle cfg maxsize env s q
